import Mathlib

/-!
Verification of the `acis-python-sdk` client library (`acis_trading/client.py`
and `acis_trading/exceptions.py`) against its natural-language specification.

The embedding models:
- JSON values (`Json`) and decoded JSON object bodies (`JObj`, an association
  list, the shape produced by decoding a JSON object body);
- the exception taxonomy of `exceptions.py` as the sum type `ACISError`,
  with Python `None` rendered as `Json.null` for dynamically typed fields;
- the response classifier `ACISClient._handle_response`;
- the transport layer `ACISClient._request`, with the HTTP call abstracted
  as an oracle from the request data to an outcome (a response, or a raised
  `requests` exception described by its `Timeout` / `ConnectionError` flags);
- client construction `ACISClient.__init__` and the request-shaping methods
  `generate_portfolio` and its four convenience wrappers.
-/

/-- JSON values, as decoded by Python's `response.json()`.  Python `None`
(JSON `null`) is `Json.null`; numbers are modelled as rationals. -/
inductive Json where
  | null : Json
  | bool : Bool → Json
  | num : Rat → Json
  | str : String → Json
  | arr : List Json → Json
  | obj : List (String × Json) → Json

/-- A decoded JSON object body: what `response.json()` yields for the
object-shaped bodies the API contract uses (§4.3 reads an optional `detail`
field from it), as an association list in insertion order. -/
abbrev JObj := List (String × Json)

/-- Python `dict.get(k, default)`: the stored value when the key is present
(even when that value is `None`), otherwise the default. -/
def dictGet (data : JObj) (k : String) (default : Json) : Json :=
  (data.lookup k).getD default

/-- The exception taxonomy of `exceptions.py`: one variant per subclass of
`ACISError`, each carrying `message` (a dynamically typed Python value),
`status_code` and `response`; `RateLimitError` additionally carries
`reset_at` (Python `None` rendered as `Json.null`). -/
inductive ACISError where
  | authenticationError : Json → Option Nat → Option JObj → ACISError
  | rateLimitError : Json → Option Nat → Json → Option JObj → ACISError
  | validationError : Json → Option Nat → Option JObj → ACISError
  | apiError : Json → Option Nat → Option JObj → ACISError

/-- The kind discriminant of the error taxonomy. -/
inductive ErrKind where
  | auth | rateLimit | validation | api
deriving DecidableEq

def ACISError.kind : ACISError → ErrKind
  | .authenticationError _ _ _ => .auth
  | .rateLimitError _ _ _ _ => .rateLimit
  | .validationError _ _ _ => .validation
  | .apiError _ _ _ => .api

def ACISError.message : ACISError → Json
  | .authenticationError m _ _ => m
  | .rateLimitError m _ _ _ => m
  | .validationError m _ _ => m
  | .apiError m _ _ => m

def ACISError.statusCode : ACISError → Option Nat
  | .authenticationError _ sc _ => sc
  | .rateLimitError _ sc _ _ => sc
  | .validationError _ sc _ => sc
  | .apiError _ sc _ => sc

def ACISError.response : ACISError → Option JObj
  | .authenticationError _ _ r => r
  | .rateLimitError _ _ _ r => r
  | .validationError _ _ r => r
  | .apiError _ _ r => r

/-- The `reset_at` field, meaningful only for the `rateLimitError` variant. -/
def ACISError.resetAt : ACISError → Json
  | .rateLimitError _ _ ra _ => ra
  | _ => Json.null

/-- `ACISClient._handle_response` (client.py:122-158).  `decoded` is the
result of `response.json()`: `some data` when the body decodes to a JSON
object, `none` when decoding raises `ValueError`; `text` is `response.text`.
On decode failure the body `{"detail": text}` is synthesized.  Then the
status code drives the decision table: 200 returns the data; 401, 429 and
422 raise the corresponding typed errors; anything else raises `APIError`
with message `"API error: <status>"` by default. -/
def handle_response (status : Nat) (decoded : Option JObj) (text : String) :
    Except ACISError JObj :=
  let data := decoded.getD [("detail", Json.str text)]
  if status = 200 then
    .ok data
  else if status = 401 then
    .error (.authenticationError (dictGet data "detail" (.str "Invalid API key"))
      (some 401) (some data))
  else if status = 429 then
    .error (.rateLimitError (dictGet data "detail" (.str "Rate limit exceeded"))
      (some 429) (dictGet data "reset_at" Json.null) (some data))
  else if status = 422 then
    .error (.validationError (dictGet data "detail" (.str "Validation error"))
      (some 422) (some data))
  else
    .error (.apiError (dictGet data "detail" (.str ("API error: " ++ toString status)))
      (some status) (some data))

/-- A raised `requests` exception, described by which of the two handled
classes it belongs to.  `requests.exceptions.ConnectTimeout` is both a
`Timeout` and a `ConnectionError`, so the two flags are independent. -/
structure RequestException where
  isTimeout : Bool
  isConnectionError : Bool

/-- The outcome of the one HTTP call `self._session.request(...)` makes:
either a response (status code, JSON-object decode result, raw text) or a
raised exception. -/
inductive HttpOutcome where
  | response : Nat → Option JObj → String → HttpOutcome
  | exn : RequestException → HttpOutcome

/-- What a call through the client can raise: a typed `ACISError`, or an
exception the `except` clauses of `_request` do not catch, which propagates
unchanged. -/
inductive CallError where
  | acis : ACISError → CallError
  | unhandled : RequestException → CallError

/-- The HTTP transport abstracted as a function of the request data
(method, url, params, json body) the client hands to
`self._session.request`. -/
abbrev HttpOracle := String → String → Option (List (String × Json)) → Option JObj → HttpOutcome

/-- Client state established by `ACISClient.__init__` (client.py:76-95). -/
structure Client where
  api_key : String
  base_url : String
  timeout : Nat
  headers : List (String × String)

/-- Python `str.rstrip("/")`: removes ALL trailing `/` characters. -/
def rstripSlash (s : String) : String :=
  String.mk ((s.data.reverse.dropWhile (fun c => c = '/')).reverse)

/-- Python truthiness of an optional string: `None` and `""` are falsy. -/
def pyTruthyStr : Option String → Bool
  | none => false
  | some s => !(s == "")

/-- Python `a or b` on an optional string: the string when truthy, else `b`. -/
def pyOrStr (a : Option String) (b : String) : String :=
  match a with
  | none => b
  | some s => if s == "" then b else s

def DEFAULT_BASE_URL : String := "https://acis-trading.com/api/v1"

/-- `ACISClient.__init__` (client.py:76-95).  `api_key` and `base_url` are
`Option String` (`none` is Python `None`).  A falsy `api_key` raises
`AuthenticationError("API key is required")` before any state is built; this
embedding of construction takes no HTTP oracle at all — construction
performs no network activity.  Otherwise the base URL (the argument when
truthy, else the production default) is stored with trailing slashes
stripped, and the three fixed headers are recorded. -/
def ACISClient.init (api_key : Option String) (base_url : Option String)
    (timeout : Nat) : Except ACISError Client :=
  if pyTruthyStr api_key = false then
    .error (.authenticationError (.str "API key is required") none none)
  else
    let key := api_key.getD ""
    .ok { api_key := key
          base_url := rstripSlash (pyOrStr base_url DEFAULT_BASE_URL)
          timeout := timeout
          headers := [("Authorization", "Bearer " ++ key),
                      ("Content-Type", "application/json"),
                      ("User-Agent", "acis-python-sdk/1.0.0")] }

/-- The effective request URL `url = f"{self.base_url}{endpoint}"`
(client.py:105). -/
def Client.buildUrl (c : Client) (endpoint : String) : String :=
  c.base_url ++ endpoint

/-- `ACISClient._request` (client.py:97-120): one HTTP call at
`base_url + endpoint`; a `Timeout` is caught first and becomes
`APIError("Request timed out", 408)` with no response body, then a
`ConnectionError` becomes `APIError("Connection failed", 503)`; any other
exception propagates; a response goes to `_handle_response`. -/
def Client.request (c : Client) (oracle : HttpOracle) (method : String)
    (endpoint : String) (params : Option (List (String × Json)))
    (json : Option JObj) : Except CallError JObj :=
  match oracle method (c.buildUrl endpoint) params json with
  | .exn e =>
      if e.isTimeout then
        .error (.acis (.apiError (.str "Request timed out") (some 408) none))
      else if e.isConnectionError then
        .error (.acis (.apiError (.str "Connection failed") (some 503) none))
      else
        .error (.unhandled e)
  | .response status decoded text =>
      (handle_response status decoded text).mapError .acis

/-- Python truthiness of the optional float `investment_amount`: `None` and
zero are falsy. -/
def pyTruthyNum : Option Rat → Bool
  | none => false
  | some a => !(a == 0)

/-- The JSON body assembled by `ACISClient.generate_portfolio`
(client.py:211-218): the three fixed keys, plus `investment_amount`
appended when the argument is truthy. -/
def generate_portfolio_payload (strategy : String) (max_positions : Int)
    (risk_tolerance : String) (investment_amount : Option Rat) : JObj :=
  let payload : JObj :=
    [("strategy", .str strategy),
     ("max_positions", .num (max_positions : Rat)),
     ("risk_tolerance", .str risk_tolerance)]
  if pyTruthyNum investment_amount then
    payload ++ [("investment_amount", .num (investment_amount.getD 0))]
  else
    payload

/-- `ACISClient.generate_portfolio` (client.py:164-220): builds the payload
and POSTs it to `/portfolios/generate` (no query params). -/
def Client.generate_portfolio (c : Client) (oracle : HttpOracle)
    (strategy : String) (max_positions : Int) (risk_tolerance : String)
    (investment_amount : Option Rat) : Except CallError JObj :=
  c.request oracle "POST" "/portfolios/generate" none
    (some (generate_portfolio_payload strategy max_positions risk_tolerance
      investment_amount))

/-- `ACISClient.get_value_portfolio` (client.py:382-384): delegates to
`generate_portfolio` with `strategy="value"`, forwarding `max_positions`;
`risk_tolerance` and `investment_amount` stay at their source defaults
(`"moderate"`, `None`). -/
def Client.get_value_portfolio (c : Client) (oracle : HttpOracle)
    (max_positions : Int) : Except CallError JObj :=
  c.generate_portfolio oracle "value" max_positions "moderate" none

/-- `ACISClient.get_growth_portfolio` (client.py:386-388). -/
def Client.get_growth_portfolio (c : Client) (oracle : HttpOracle)
    (max_positions : Int) : Except CallError JObj :=
  c.generate_portfolio oracle "growth" max_positions "moderate" none

/-- `ACISClient.get_dividend_portfolio` (client.py:390-392). -/
def Client.get_dividend_portfolio (c : Client) (oracle : HttpOracle)
    (max_positions : Int) : Except CallError JObj :=
  c.generate_portfolio oracle "dividend" max_positions "moderate" none

/-- `ACISClient.get_adaptive_portfolio` (client.py:394-396). -/
def Client.get_adaptive_portfolio (c : Client) (oracle : HttpOracle)
    (max_positions : Int) : Except CallError JObj :=
  c.generate_portfolio oracle "adaptive" max_positions "moderate" none

/-! ## Helper lemmas about `rstripSlash` -/

/-- A string whose last character is not `/` is unchanged by `rstripSlash`. -/
theorem rstripSlash_eq_self (u : String) (hu : u.data.getLast? ≠ some '/') :
    rstripSlash u = u := by
  obtain ⟨l⟩ := u
  show String.mk ((l.reverse.dropWhile (fun c => c = '/')).reverse) = String.mk l
  congr 1
  cases hr : l.reverse with
  | nil =>
    have h0 : l = [] := by simpa using congrArg List.reverse hr
    subst h0; rfl
  | cons a r =>
    have ha : l.getLast? = some a := by rw [← List.head?_reverse, hr]; rfl
    have hna : a ≠ '/' := fun h => hu (by simpa [h] using ha)
    rw [List.dropWhile_cons, if_neg (by simp [hna]), ← hr, List.reverse_reverse]

/-- Appending one `/` does not change the result of `rstripSlash`. -/
theorem rstripSlash_append_slash (u : String) :
    rstripSlash (u ++ "/") = rstripSlash u := by
  obtain ⟨l⟩ := u
  show String.mk _ = String.mk _
  congr 1
  show (((l ++ ['/']).reverse).dropWhile (fun c => c = '/')).reverse = _
  rw [List.reverse_append]
  simp [List.dropWhile_cons]

/-- `rstripSlash` removes a maximal run of trailing slashes: the input is the
output followed by some number of `/` characters, and the output does not end
in `/`. -/
theorem rstripSlash_decomposition (u : String) :
    ∃ n, u.data = (rstripSlash u).data ++ List.replicate n '/' ∧
      (rstripSlash u).data.getLast? ≠ some '/' := by
  obtain ⟨l⟩ := u
  refine ⟨(l.reverse.takeWhile (fun c => c = '/')).length, ?_, ?_⟩
  · show l = (l.reverse.dropWhile (fun c => c = '/')).reverse ++ _
    have hall : l.reverse.takeWhile (fun c => decide (c = '/')) =
        List.replicate (l.reverse.takeWhile (fun c => decide (c = '/'))).length '/' :=
      List.eq_replicate_length.mpr (fun b hb => by
        have hpb := List.mem_takeWhile_imp hb
        simpa using hpb)
    conv_lhs => rw [← List.reverse_reverse l,
      ← List.takeWhile_append_dropWhile (p := fun c => decide (c = '/')) (l := l.reverse)]
    rw [List.reverse_append]
    congr 1
    rw [hall, List.reverse_replicate, List.length_replicate]
  · show ((l.reverse.dropWhile (fun c => c = '/')).reverse).getLast? ≠ some '/'
    rw [List.getLast?_reverse]
    intro hcon
    have hh := List.head?_dropWhile_not (fun c => decide (c = '/')) l.reverse
    rw [hcon] at hh
    simp at hh

/-! ## Claim C6: base-URL normalization at construction -/

/-- C6 counterexample: the claim says a `baseUrl` ending in two slashes keeps
one slash after normalization, but construction uses Python's
`rstrip("/")`, which removes ALL trailing slashes: `"https://a//"` is stored
as `"https://a"`, not `"https://a/"`. -/
theorem base_url_double_slash_counterexample :
    (ACISClient.init (some "k") (some "https://a//") 30).map Client.base_url
      = .ok "https://a" ∧ ("https://a" : String) ≠ "https://a/" :=
  ⟨rfl, by decide⟩

/-- C6 (amended): for every truthy apiKey, a supplied non-empty `baseUrl` is
stored with its maximal run of trailing slashes removed (the stored URL does
not end in `/` and the argument is the stored URL plus some number of
trailing slashes); when `baseUrl` is absent — or empty, which Python's
`or`-default treats the same — the fixed production default is stored. -/
theorem base_url_strips_all_trailing_slashes (api_key : Option String)
    (u : String) (t : Nat) (hk : pyTruthyStr api_key = true) (hu : u ≠ "") :
    (∃ b n, (ACISClient.init api_key (some u) t).map Client.base_url = .ok b ∧
      u.data = b.data ++ List.replicate n '/' ∧ b.data.getLast? ≠ some '/') ∧
    (ACISClient.init api_key none t).map Client.base_url = .ok DEFAULT_BASE_URL ∧
    (ACISClient.init api_key (some "") t).map Client.base_url = .ok DEFAULT_BASE_URL := by
  have hinit : ∀ bu : Option String, (ACISClient.init api_key bu t).map Client.base_url
      = .ok (rstripSlash (pyOrStr bu DEFAULT_BASE_URL)) := by
    intro bu
    simp [ACISClient.init, hk, Except.map]
  have hdef : rstripSlash DEFAULT_BASE_URL = DEFAULT_BASE_URL := rfl
  refine ⟨?_, ?_, ?_⟩
  · obtain ⟨n, hdec, hlast⟩ := rstripSlash_decomposition u
    refine ⟨rstripSlash u, n, ?_, hdec, hlast⟩
    rw [hinit (some u)]
    congr 2
    show (if u == "" then DEFAULT_BASE_URL else u) = u
    rw [if_neg (by simpa using hu)]
  · rw [hinit none]
    show Except.ok (rstripSlash DEFAULT_BASE_URL) = _
    rw [hdef]
  · rw [hinit (some "")]
    show Except.ok (rstripSlash DEFAULT_BASE_URL) = _
    rw [hdef]

/-- C6 witness: the amended claim at the concrete inputs `"https://a//"`
(two trailing slashes removed), an absent base URL and an empty one. -/
theorem base_url_strips_all_trailing_slashes_witness :
    (∃ b n, (ACISClient.init (some "k") (some "https://a//") 30).map Client.base_url
        = .ok b ∧
      ("https://a//" : String).data = b.data ++ List.replicate n '/' ∧
      b.data.getLast? ≠ some '/') ∧
    (ACISClient.init (some "k") none 30).map Client.base_url = .ok DEFAULT_BASE_URL ∧
    (ACISClient.init (some "k") (some "") 30).map Client.base_url = .ok DEFAULT_BASE_URL :=
  base_url_strips_all_trailing_slashes (some "k") "https://a//" 30 rfl (by decide)

/-! ## Claim C7: trailing-slash insensitivity of effective URLs -/

/-- C7 counterexample: for the base URL `u = ""` (which does not end in a
slash), a client built with `u` falls back to the production default (empty
strings are falsy to Python's `or`), while a client built with `u ++ "/"`
stores `""` after stripping, so the two effective request URLs differ. -/
theorem trailing_slash_empty_counterexample :
    (ACISClient.init (some "k") (some "") 30).map (fun c => c.buildUrl "/usage")
      = .ok "https://acis-trading.com/api/v1/usage" ∧
    (ACISClient.init (some "k") (some ("" ++ "/")) 30).map (fun c => c.buildUrl "/usage")
      = .ok "/usage" ∧
    ("https://acis-trading.com/api/v1/usage" : String) ≠ "/usage" :=
  ⟨rfl, rfl, by decide⟩

/-- C7 (amended): for every truthy apiKey and every NON-EMPTY base URL `u`
not ending in a slash, clients constructed with `u` and with `u ++ "/"`
build identical effective request URLs for every path. -/
theorem trailing_slash_url_equivalence (api_key : Option String)
    (u endpoint : String) (t : Nat) (hk : pyTruthyStr api_key = true)
    (hne : u ≠ "") (hu : u.data.getLast? ≠ some '/') :
    ∃ c1 c2, ACISClient.init api_key (some u) t = .ok c1 ∧
      ACISClient.init api_key (some (u ++ "/")) t = .ok c2 ∧
      c1.base_url = u ∧ c1.buildUrl endpoint = c2.buildUrl endpoint := by
  have hslash : u ++ "/" ≠ "" := by
    intro hcon
    have hd : u.data ++ ['/'] = ([] : List Char) := by
      have h := congrArg String.data hcon
      rw [String.data_append] at h
      exact h
    simp at hd
  have h1 : pyOrStr (some u) DEFAULT_BASE_URL = u := by
    simp [pyOrStr, hne]
  have h2 : pyOrStr (some (u ++ "/")) DEFAULT_BASE_URL = u ++ "/" := by
    simp [pyOrStr, hslash]
  refine ⟨{ api_key := api_key.getD "", base_url := rstripSlash u, timeout := t,
            headers := [("Authorization", "Bearer " ++ api_key.getD ""),
                        ("Content-Type", "application/json"),
                        ("User-Agent", "acis-python-sdk/1.0.0")] },
          { api_key := api_key.getD "", base_url := rstripSlash u, timeout := t,
            headers := [("Authorization", "Bearer " ++ api_key.getD ""),
                        ("Content-Type", "application/json"),
                        ("User-Agent", "acis-python-sdk/1.0.0")] },
          ?_, ?_, rstripSlash_eq_self u hu, rfl⟩
  · simp [ACISClient.init, hk, h1]
  · simp [ACISClient.init, hk, h2, rstripSlash_append_slash]

/-- C7 witness: the amended claim at a concrete base URL and path. -/
theorem trailing_slash_url_equivalence_witness :
    ∃ c1 c2, ACISClient.init (some "k") (some "https://x.io") 30 = .ok c1 ∧
      ACISClient.init (some "k") (some ("https://x.io" ++ "/")) 30 = .ok c2 ∧
      c1.base_url = "https://x.io" ∧ c1.buildUrl "/health" = c2.buildUrl "/health" :=
  trailing_slash_url_equivalence (some "k") "https://x.io" "/health" 30 rfl
    (by decide) (by decide)

/-! ## Claim C1: the §4.3 decision table for decoded bodies -/

/-- C1: for every decoded JSON object body, `_handle_response` realises the
§4.3 decision table: 200 returns the body unchanged; 401 raises an
Authentication error, 429 a RateLimit error whose `reset_at` is the body's
`reset_at` field when present (Python `None`, i.e. `Json.null`, otherwise),
422 a Validation error, any other status a generic API error whose message
is `"API error: <status>"` when the body has no `detail` key; every non-200
outcome carries the numeric status as `status_code` and the body as
`response`. -/
theorem handle_response_decision_table (s : Nat) (data : JObj) (t : String)
    (hs : s ≠ 200) :
    handle_response 200 (some data) t = .ok data ∧
    ∃ e, handle_response s (some data) t = .error e ∧
      e.statusCode = some s ∧
      e.response = some data ∧
      (s = 401 → e.kind = .auth) ∧
      (s = 429 → e.kind = .rateLimit ∧
        e.resetAt = (data.lookup "reset_at").getD Json.null) ∧
      (s = 422 → e.kind = .validation) ∧
      (¬ s = 401 → ¬ s = 429 → ¬ s = 422 → e.kind = .api ∧
        (data.lookup "detail" = none →
          e.message = .str ("API error: " ++ toString s))) := by
  refine ⟨rfl, ?_⟩
  by_cases h1 : s = 401
  · subst h1
    exact ⟨_, rfl, rfl, rfl, fun _ => rfl, fun h => absurd h (by decide),
      fun h => absurd h (by decide), fun h => absurd rfl h⟩
  · by_cases h2 : s = 429
    · subst h2
      exact ⟨_, rfl, rfl, rfl, fun h => absurd h (by decide), fun _ => ⟨rfl, rfl⟩,
        fun h => absurd h (by decide), fun _ h => absurd rfl h⟩
    · by_cases h3 : s = 422
      · subst h3
        exact ⟨_, rfl, rfl, rfl, fun h => absurd h (by decide),
          fun h => absurd h (by decide), fun _ => rfl, fun _ _ h => absurd rfl h⟩
      · refine ⟨.apiError (dictGet data "detail" (.str ("API error: " ++ toString s)))
          (some s) (some data), ?_, rfl, rfl, fun h => absurd h h1,
          fun h => absurd h h2, fun h => absurd h h3, fun _ _ _ => ⟨rfl, ?_⟩⟩
        · simp [handle_response, hs, h1, h2, h3]
        · intro hd
          simp [dictGet, hd, ACISError.message]

/-- C1 witness: the decision table at status 500 with body `{}`. -/
theorem handle_response_decision_table_witness :
    handle_response 200 (some []) "x" = .ok [] ∧
    ∃ e, handle_response 500 (some []) "x" = .error e ∧
      e.statusCode = some 500 ∧ e.response = some [] := by
  obtain ⟨h200, e, he, hst, hresp, -, -, -, -⟩ :=
    handle_response_decision_table 500 [] "x" (by decide)
  exact ⟨h200, e, he, hst, hresp⟩

/-! ## Claim C2: non-JSON bodies are synthesized, never a decode failure -/

/-- C2: when the body is not valid JSON, the classifier synthesizes
`{"detail": <raw text>}` and classifies exactly as it would that decoded
body; in particular a non-JSON 401 body raises an Authentication error whose
message is the raw text and whose response is the synthesized mapping. -/
theorem handle_response_invalid_json (s : Nat) (t : String) :
    handle_response s none t = handle_response s (some [("detail", Json.str t)]) t ∧
    handle_response 401 none t =
      .error (.authenticationError (.str t) (some 401)
        (some [("detail", Json.str t)])) := by
  refine ⟨rfl, ?_⟩
  simp [handle_response, dictGet, List.lookup]

/-! ## Claim C3: transport failure mapping in `_request` -/

/-- C3: a `Timeout` from the underlying HTTP call becomes
`APIError("Request timed out", 408)` with no response body; a connection
failure that is not a timeout becomes `APIError("Connection failed", 503)`
with no response body; the timeout test comes first (an exception that is
both yields the 408 error) and the two error values are distinct. -/
theorem request_transport_failures (c : Client) (oracle : HttpOracle)
    (method endpoint : String) (params : Option (List (String × Json)))
    (json : Option JObj) (e : RequestException)
    (h : oracle method (c.buildUrl endpoint) params json = .exn e) :
    (e.isTimeout = true →
      c.request oracle method endpoint params json =
        .error (.acis (.apiError (.str "Request timed out") (some 408) none))) ∧
    (e.isTimeout = false → e.isConnectionError = true →
      c.request oracle method endpoint params json =
        .error (.acis (.apiError (.str "Connection failed") (some 503) none))) ∧
    (ACISError.apiError (.str "Request timed out") (some 408) none ≠
      .apiError (.str "Connection failed") (some 503) none) := by
  refine ⟨?_, ?_, ?_⟩
  · intro ht
    simp [Client.request, h, ht]
  · intro ht hc
    simp [Client.request, h, ht, hc]
  · intro hcon
    injection hcon with h1 h2 h3
    exact absurd (Option.some.inj h2) (by decide)

/-- C3 witness: an exception that is both a `Timeout` and a
`ConnectionError` (e.g. `ConnectTimeout`) is mapped by the first matching
clause, to the 408 error. -/
theorem request_transport_failures_witness :
    ({ api_key := "k", base_url := "https://a", timeout := 30,
       headers := [] } : Client).request
      (fun _ _ _ _ => .exn ⟨true, true⟩) "GET" "/usage" none none =
      .error (.acis (.apiError (.str "Request timed out") (some 408) none)) :=
  (request_transport_failures _ _ "GET" "/usage" none none ⟨true, true⟩ rfl).1 rfl

/-! ## Claim C4: construction requires a non-empty API key -/

/-- C4: construction with a falsy (empty or absent) apiKey raises
`AuthenticationError("API key is required")` — the embedding of construction
is a pure function of its arguments, so no network activity is involved, and
the error is produced instead of any client state — while any truthy apiKey
yields a constructed client. -/
theorem init_requires_api_key (api_key base_url : Option String) (timeout : Nat) :
    (pyTruthyStr api_key = false →
      ACISClient.init api_key base_url timeout =
        .error (.authenticationError (.str "API key is required") none none)) ∧
    (pyTruthyStr api_key = true →
      ∃ c : Client, ACISClient.init api_key base_url timeout = .ok c) := by
  constructor
  · intro h
    simp [ACISClient.init, h]
  · intro h
    unfold ACISClient.init
    rw [if_neg (by simp [h])]
    exact ⟨_, rfl⟩

/-! ## Claim C5: the `generate_portfolio` request body -/

/-- C5: the JSON body holds exactly `strategy`, `max_positions` and
`risk_tolerance` at the given values, plus `investment_amount` (at its given
value) exactly when the supplied amount is truthy; an explicit amount of `0`
produces the same body as omitting the argument. -/
theorem generate_portfolio_payload_keys (s r : String) (m : Int) (amt : Option Rat) :
    (pyTruthyNum amt = false →
      generate_portfolio_payload s m r amt =
        [("strategy", .str s), ("max_positions", .num (m : Rat)),
         ("risk_tolerance", .str r)]) ∧
    (∀ a : Rat, amt = some a → a ≠ 0 →
      generate_portfolio_payload s m r amt =
        [("strategy", .str s), ("max_positions", .num (m : Rat)),
         ("risk_tolerance", .str r), ("investment_amount", .num a)]) ∧
    generate_portfolio_payload s m r (some 0) = generate_portfolio_payload s m r none := by
  refine ⟨?_, ?_, rfl⟩
  · intro h
    simp [generate_portfolio_payload, h]
  · intro a ha hz
    subst ha
    simp [generate_portfolio_payload, pyTruthyNum, hz]

/-! ## Claim C8: the convenience wrappers delegate to `generate_portfolio` -/

/-- C8: each of the four convenience wrappers is, for every client, HTTP
behaviour and `max_positions`, the very call to `generate_portfolio` with
its fixed strategy and the source defaults `risk_tolerance="moderate"`,
`investment_amount=None`: same request body, same result, same error. -/
theorem convenience_wrappers_delegate (c : Client) (oracle : HttpOracle) (m : Int) :
    c.get_value_portfolio oracle m =
      c.generate_portfolio oracle "value" m "moderate" none ∧
    c.get_growth_portfolio oracle m =
      c.generate_portfolio oracle "growth" m "moderate" none ∧
    c.get_dividend_portfolio oracle m =
      c.generate_portfolio oracle "dividend" m "moderate" none ∧
    c.get_adaptive_portfolio oracle m =
      c.generate_portfolio oracle "adaptive" m "moderate" none :=
  ⟨rfl, rfl, rfl, rfl⟩

/-! ## Claim C9: a present `detail` key always wins, even when falsy -/

/-- The documented default message of each non-200 row of the §4.3 table. -/
def defaultDetail (s : Nat) : Json :=
  if s = 401 then .str "Invalid API key"
  else if s = 429 then .str "Rate limit exceeded"
  else if s = 422 then .str "Validation error"
  else .str ("API error: " ++ toString s)

/-- C9: for every non-200 status, when the body has a `detail` key the
raised error's message is the stored value itself — even `null` or `""` —
and the documented default message is used exactly when the `detail` key is
absent. -/
theorem detail_key_controls_message (s : Nat) (data : JObj) (t : String)
    (v : Json) (hs : s ≠ 200) :
    (data.lookup "detail" = some v →
      ∃ e, handle_response s (some data) t = .error e ∧ e.message = v) ∧
    (data.lookup "detail" = none →
      ∃ e, handle_response s (some data) t = .error e ∧
        e.message = defaultDetail s) := by
  by_cases h1 : s = 401
  · subst h1
    exact ⟨fun hd => ⟨_, rfl, by simp [ACISError.message, dictGet, hd]⟩,
           fun hd => ⟨_, rfl, by simp [ACISError.message, dictGet, hd, defaultDetail]⟩⟩
  · by_cases h2 : s = 429
    · subst h2
      exact ⟨fun hd => ⟨_, rfl, by simp [ACISError.message, dictGet, hd]⟩,
             fun hd => ⟨_, rfl, by simp [ACISError.message, dictGet, hd, defaultDetail]⟩⟩
    · by_cases h3 : s = 422
      · subst h3
        exact ⟨fun hd => ⟨_, rfl, by simp [ACISError.message, dictGet, hd]⟩,
               fun hd => ⟨_, rfl, by simp [ACISError.message, dictGet, hd, defaultDetail]⟩⟩
      · have hr : handle_response s (some data) t =
            .error (.apiError (dictGet data "detail"
              (.str ("API error: " ++ toString s))) (some s) (some data)) := by
          simp [handle_response, hs, h1, h2, h3]
        have hdef : defaultDetail s = .str ("API error: " ++ toString s) := by
          simp [defaultDetail, h1, h2, h3]
        exact ⟨fun hd => ⟨_, hr, by simp [ACISError.message, dictGet, hd]⟩,
               fun hd => ⟨_, hr, by simp [ACISError.message, dictGet, hd, hdef]⟩⟩

/-- C9 witness: a 401 body whose `detail` is JSON `null` yields an error
whose message is `null`, not the default `"Invalid API key"`. -/
theorem detail_key_controls_message_witness :
    ∃ e, handle_response 401 (some [("detail", Json.null)]) "" = .error e ∧
      e.message = Json.null :=
  (detail_key_controls_message 401 [("detail", Json.null)] "" Json.null
    (by decide)).1 rfl

/-! ## Claim C10: success exactly at status 200 -/

/-- C10: the classifier returns a success value exactly when the status code
is 200 (the returned value being the decoded or synthesized body); every
other status — 201 and 204 included — raises a typed error. -/
theorem success_iff_status_200 (s : Nat) (decoded : Option JObj) (t : String) :
    (s = 200 → handle_response s decoded t = .ok (decoded.getD [("detail", .str t)])) ∧
    (¬ s = 200 → ∃ e, handle_response s decoded t = .error e) := by
  constructor
  · intro h
    subst h
    rfl
  · intro h0
    by_cases h1 : s = 401
    · subst h1; exact ⟨_, rfl⟩
    · by_cases h2 : s = 429
      · subst h2; exact ⟨_, rfl⟩
      · by_cases h3 : s = 422
        · subst h3; exact ⟨_, rfl⟩
        · exact ⟨.apiError (dictGet (decoded.getD [("detail", .str t)]) "detail"
            (.str ("API error: " ++ toString s))) (some s)
            (some (decoded.getD [("detail", .str t)])),
            by simp [handle_response, h0, h1, h2, h3]⟩

/-- C10 witness: status 200 succeeds; the success-range status 201 still
raises an error. -/
theorem success_iff_status_200_witness :
    handle_response 200 (some [("ok", Json.bool true)]) "" = .ok [("ok", Json.bool true)] ∧
    ∃ e, handle_response 201 (some [("ok", Json.bool true)]) "" = .error e :=
  ⟨(success_iff_status_200 200 (some [("ok", Json.bool true)]) "").1 rfl,
   (success_iff_status_200 201 (some [("ok", Json.bool true)]) "").2 (by decide)⟩
